import Mathlib

/-!
Verification development for the SeekrBoard lost-and-found backend
(`src/routes.js`).  The definitions below are a shallow embedding of the
match-generation and match-confirmation workflow: the scoring heuristic,
`generateMatches`, `POST /items` (`createItem`), `PUT /matches/:id/status`
(`updateMatchStatus`) and `PUT /notifications/:id/read` (`markRead`).
Fields that can be absent in a stored document (JS `undefined`) are
modelled with `Option`; a thrown JS exception is modelled by `none` /
an error result; Firestore document ids are modelled by a counter.
-/

namespace SeekrBoard

/-- Contiguous-prefix test on character lists (JS `String.prototype.startsWith`
shape, used only to build the substring test below). -/
def begMatch : List Char → List Char → Bool
  | [], _ => true
  | _ :: _, [] => false
  | a :: as, b :: bs => a == b && begMatch as bs

/-- Contiguous-substring test on character lists. -/
def subList (needle hay : List Char) : Bool :=
  match hay with
  | [] => needle.isEmpty
  | _ :: t => begMatch needle hay || subList needle t

/-- JS `s.toLowerCase()` on the character list of a string (ASCII-relevant
part; implemented directly so that terms reduce). -/
def lowerData (s : String) : List Char :=
  s.data.map Char.toLower

/-- JS `s.split(' ')`: split on every single space character, keeping empty
fragments; the empty string yields one empty fragment. -/
def splitSpace : List Char → List (List Char)
  | [] => [[]]
  | c :: t =>
      let r := splitSpace t
      if c == ' ' then [] :: r
      else
        match r with
        | [] => [[c]]
        | w :: ws => (c :: w) :: ws

/-- Leading-whitespace removal, one half of JS `s.trim()`. -/
def dropLeadWS : List Char → List Char
  | [] => []
  | c :: t => if c.isWhitespace then dropLeadWS t else c :: t

/-- JS `s.trim()`. -/
def trimStr (s : String) : String :=
  String.mk ((dropLeadWS ((dropLeadWS s.data).reverse)).reverse)

/-- Item status strings stored in the `status` field. -/
inductive ItemStatus
  | Lost
  | Found
  | Returned
deriving DecidableEq, Repr

/-- Match status strings stored in the `status` field of a match. -/
inductive MatchStatus
  | Pending
  | Confirmed
  | Rejected
deriving DecidableEq, Repr

/-- An item document.  `title`, `description` and `location` may be absent
(JS `undefined`), which matters to the scoring code. -/
structure ItemData where
  title : Option String
  description : Option String
  category : String
  contact_info : String
  location : Option String
  image_url : String
  posted_by : String
  status : ItemStatus
  date : Nat
deriving DecidableEq, Repr

/-- A match document, as written by `generateMatches`. -/
structure MatchData where
  lost_item_id : Nat
  found_item_id : Nat
  confidence_score : Nat
  status : MatchStatus
  created_at : Nat
  updated_at : Option Nat
deriving DecidableEq, Repr

/-- A notification document, as written by `generateMatches`. -/
structure NotificationData where
  user_id : String
  message : String
  is_read : Bool
  created_at : Nat
  match_id : Nat
  read_at : Option Nat
deriving DecidableEq, Repr

/-- The document store: the three collections used by the core, plus a
counter standing for Firestore's opaque id generator. -/
structure Store where
  items : List (Nat × ItemData)
  matchDocs : List (Nat × MatchData)
  notifications : List (Nat × NotificationData)
  nextId : Nat
deriving DecidableEq, Repr

/-- Get-by-id on a collection (first entry with the given key). -/
def findDoc {α : Type} (docs : List (Nat × α)) (id : Nat) : Option α :=
  match docs with
  | [] => none
  | p :: rest => if p.1 = id then some p.2 else findDoc rest id

/-- Update-by-id on a collection; a no-op when the id is absent
(the caller separately models Firestore's `update`-on-missing error). -/
def updateDoc {α : Type} (docs : List (Nat × α)) (id : Nat) (f : α → α) :
    List (Nat × α) :=
  docs.map (fun p => if p.1 = id then (p.1, f p.2) else p)

/-- JS falsiness of an optional string form field: absent or empty. -/
def jsFalsy : Option String → Bool
  | none => true
  | some s => s == ""

/-- Title factor of the scoring heuristic (routes.js lines 84-87).  There is
no missing-field guard in the source: `undefined.toLowerCase()` throws, which
is modelled by `none`. -/
def titleFactor : Option String → Option String → Option Nat
  | some et, some nt =>
      some (if subList (lowerData nt) (lowerData et) || subList (lowerData et) (lowerData nt)
            then 40 else 0)
  | _, _ => none

/-- Description factor of the scoring heuristic (routes.js lines 89-94):
guarded by JS truthiness of both descriptions; the common-token count runs
over the new item's token list (duplicates counted). -/
def descFactor : Option String → Option String → Nat
  | some ed, some nd =>
      if ed == "" || nd == "" then 0
      else
        min (((splitSpace (lowerData nd)).filter
              (fun w => (splitSpace (lowerData ed)).contains w)).length * 5) 30
  | _, _ => 0

/-- Location factor of the scoring heuristic (routes.js lines 96-103):
guarded by JS truthiness of both locations. -/
def locFactor : Option String → Option String → Nat
  | some el, some nl =>
      if el == "" || nl == "" then 0
      else if lowerData el == lowerData nl then 20
      else if subList (lowerData nl) (lowerData el) || subList (lowerData el) (lowerData nl)
      then 10
      else 0
  | _, _ => 0

/-- The confidence score of one candidate (`existingItem`) against the new
item, routes.js lines 81-103.  `none` models the TypeError thrown when either
title is absent. -/
def scoreItems (existingItem newItem : ItemData) : Option Nat :=
  match titleFactor existingItem.title newItem.title with
  | none => none
  | some t =>
      some (t + descFactor existingItem.description newItem.description
              + locFactor existingItem.location newItem.location)

/-- JS `status.toLowerCase()` on the stored status string. -/
def statusLowerStr : ItemStatus → String
  | ItemStatus.Lost => "lost"
  | ItemStatus.Found => "found"
  | ItemStatus.Returned => "returned"

/-- JS template-literal rendering of a possibly-absent string. -/
def jsStr : Option String → String
  | none => "undefined"
  | some s => s

/-- The match document built at routes.js lines 107-113. -/
def mkMatchData (newItemId : Nat) (nd : ItemData) (candId : Nat) (cs : Nat)
    (now : Nat) : MatchData :=
  { lost_item_id := if nd.status == ItemStatus.Lost then newItemId else candId
    found_item_id := if nd.status == ItemStatus.Found then newItemId else candId
    confidence_score := cs
    status := MatchStatus.Pending
    created_at := now
    updated_at := none }

/-- The notification document built at routes.js lines 119-125. -/
def mkNotifData (nd : ItemData) (cand : ItemData) (matchId : Nat) (now : Nat) :
    NotificationData :=
  { user_id := cand.posted_by
    message := "Potential match found for your " ++ statusLowerStr nd.status
      ++ " item: \"" ++ jsStr nd.title ++ "\""
    is_read := false
    created_at := now
    match_id := matchId
    read_at := none }

/-- The per-match projection pushed onto the returned list
(routes.js lines 130-138). -/
structure MatchResult where
  match_id : Nat
  confidence_score : Nat
  matched_item_id : Nat
  matched_item_title : Option String
  matched_item_description : Option String
deriving DecidableEq, Repr

def mkMatchResult (cand : Nat × ItemData) (cs : Nat) (matchId : Nat) :
    MatchResult :=
  { match_id := matchId
    confidence_score := cs
    matched_item_id := cand.1
    matched_item_title := cand.2.title
    matched_item_description := cand.2.description }

/-- One iteration of the candidate loop (routes.js lines 79-140): score the
candidate; `none` when scoring throws; below threshold nothing is written;
at or above threshold one match and one notification are written. -/
def processCandidate (newItemId : Nat) (nd : ItemData) (cand : Nat × ItemData)
    (st : Store) (now : Nat) : Option (Store × Option MatchResult) :=
  match scoreItems cand.2 nd with
  | none => none
  | some cs =>
      if 30 ≤ cs then
        some ({ st with
            matchDocs := st.matchDocs ++ [(st.nextId, mkMatchData newItemId nd cand.1 cs now)]
            notifications := st.notifications ++ [(st.nextId + 1, mkNotifData nd cand.2 st.nextId now)]
            nextId := st.nextId + 2 },
          some (mkMatchResult cand cs st.nextId))
      else some (st, none)

/-- The sequential candidate scan.  A throw (`none` from one iteration)
stops the scan, keeping every write already awaited. -/
def genScan (newItemId : Nat) (nd : ItemData) (now : Nat) :
    List (Nat × ItemData) → Store → List MatchResult →
    Store × Option (List MatchResult)
  | [], st, acc => (st, some acc)
  | c :: cs, st, acc =>
      match processCandidate newItemId nd c st now with
      | none => (st, none)
      | some (st1, none) => genScan newItemId nd now cs st1 acc
      | some (st1, some r) => genScan newItemId nd now cs st1 (acc ++ [r])

/-- The candidate query's status filter (routes.js line 74):
`status === 'Lost' ? 'Found' : 'Lost'`. -/
def oppositeStatus (s : ItemStatus) : ItemStatus :=
  if s == ItemStatus.Lost then ItemStatus.Found else ItemStatus.Lost

/-- The candidate query (routes.js lines 72-74): same category, opposite
status. -/
def candidates (st : Store) (nd : ItemData) : List (Nat × ItemData) :=
  st.items.filter
    (fun p => p.2.category == nd.category && p.2.status == oppositeStatus nd.status)

/-- `generateMatches` (routes.js lines 67-147): scan all candidates; the
catch block turns any throw into an empty returned list, with all writes
made before the throw left in place. -/
def generateMatches (newItemId : Nat) (nd : ItemData) (st : Store) (now : Nat) :
    Store × List MatchResult :=
  match genScan newItemId nd now (candidates st nd) st [] with
  | (st1, some ms) => (st1, ms)
  | (st1, none) => (st1, [])

/-- A `POST /items` request body plus whether a file was attached. -/
structure CreateItemRequest where
  title : Option String
  description : Option String
  category : Option String
  contact_info : Option String
  location : Option String
  status : Option String
  image : Bool
deriving DecidableEq, Repr

/-- Outcome of `POST /items`: HTTP status, resulting store, whether the
object-storage upload was invoked, the created item id, and the returned
match list. -/
structure CreateItemResult where
  statusCode : Nat
  store : Store
  uploadAttempted : Bool
  createdItemId : Option Nat
  matchList : List MatchResult
deriving DecidableEq, Repr

/-- The status whitelist check `['Lost', 'Found'].includes(status)`
(routes.js line 201). -/
def statusValid : Option String → Bool
  | some s => s == "Lost" || s == "Found"
  | none => false

/-- Parse a validated status string into the stored status. -/
def parseStatus (s : String) : ItemStatus :=
  if s == "Lost" then ItemStatus.Lost else ItemStatus.Found

/-- JS `field?.trim() || ''`. -/
def optTrim : Option String → String
  | none => ""
  | some s => trimStr s

/-- Item persistence and match generation (routes.js lines 224-251), after
validation and upload have succeeded. -/
def createItemCore (req : CreateItemRequest) (uid : String) (image_url : String)
    (st : Store) (now : Nat) : CreateItemResult :=
  let itemData : ItemData :=
    { title := some (trimStr (jsStr req.title))
      description := some (optTrim req.description)
      category := trimStr (jsStr req.category)
      contact_info := optTrim req.contact_info
      location := some (optTrim req.location)
      image_url := image_url
      posted_by := uid
      status := parseStatus (jsStr req.status)
      date := now }
  let itemId := st.nextId
  let stWithItem : Store :=
    { st with items := st.items ++ [(itemId, itemData)], nextId := st.nextId + 1 }
  let gen := generateMatches itemId itemData stWithItem now
  { statusCode := 201
    store := gen.1
    uploadAttempted := req.image
    createdItemId := some itemId
    matchList := gen.2 }

/-- `POST /items` (routes.js lines 189-260).  `upl` is the outcome the
object-storage collaborator would produce if invoked (`none` = upload
failure). -/
def createItem (req : CreateItemRequest) (uid : String) (upl : Option String)
    (st : Store) (now : Nat) : CreateItemResult :=
  if jsFalsy req.title || jsFalsy req.category || jsFalsy req.status then
    { statusCode := 400, store := st, uploadAttempted := false
      createdItemId := none, matchList := [] }
  else if !(statusValid req.status) then
    { statusCode := 400, store := st, uploadAttempted := false
      createdItemId := none, matchList := [] }
  else if req.image then
    match upl with
    | none =>
        { statusCode := 400, store := st, uploadAttempted := true
          createdItemId := none, matchList := [] }
    | some url => createItemCore req uid url st now
  else createItemCore req uid "" st now

/-- `{ status: 'Returned' }` item update (routes.js lines 515-516). -/
def setReturned (i : ItemData) : ItemData := { i with status := ItemStatus.Returned }

/-- The `['Pending', 'Confirmed', 'Rejected'].includes(status)` check
(routes.js line 472), combined with parsing. -/
def parseMatchStatus : Option String → Option MatchStatus
  | some s =>
      if s == "Pending" then some MatchStatus.Pending
      else if s == "Confirmed" then some MatchStatus.Confirmed
      else if s == "Rejected" then some MatchStatus.Rejected
      else none
  | none => none

/-- Outcome of `PUT /matches/:id/status`. -/
structure UpdateMatchResult where
  statusCode : Nat
  store : Store
deriving DecidableEq, Repr

/-- `PUT /matches/:id/status` (routes.js lines 467-532).  The match document
is updated first; when the new status is Confirmed both referenced items are
updated to Returned via `Promise.all` (both update calls are issued; an
update on a missing document rejects, producing a 500 after the match, and
any item update that did resolve, have already been written). -/
def updateMatchStatus (matchId : Nat) (newStatus : Option String) (uid : String)
    (st : Store) (now : Nat) : UpdateMatchResult :=
  match parseMatchStatus newStatus with
  | none => { statusCode := 400, store := st }
  | some ns =>
      match findDoc st.matchDocs matchId with
      | none => { statusCode := 404, store := st }
      | some md =>
          let lostOwns : Bool :=
            match findDoc st.items md.lost_item_id with
            | some d => d.posted_by == uid
            | none => false
          let foundOwns : Bool :=
            match findDoc st.items md.found_item_id with
            | some d => d.posted_by == uid
            | none => false
          if !(lostOwns || foundOwns) then { statusCode := 403, store := st }
          else
            let st1 : Store :=
              { st with matchDocs :=
                  (updateDoc st.matchDocs matchId
                    (fun m => { m with status := ns, updated_at := some now })) }
            if ns == MatchStatus.Confirmed then
              let lostExists : Bool := (findDoc st1.items md.lost_item_id).isSome
              let foundExists : Bool := (findDoc st1.items md.found_item_id).isSome
              let st3 : Store :=
                { st1 with items :=
                    (updateDoc (updateDoc st1.items md.lost_item_id setReturned)
                      md.found_item_id setReturned) }
              if lostExists && foundExists then { statusCode := 200, store := st3 }
              else { statusCode := 500, store := st3 }
            else { statusCode := 200, store := st1 }

/-- `PUT /notifications/:id/read` (routes.js lines 349-389): not-found and
ownership checks, then an unconditional update setting `is_read` and a fresh
`read_at` timestamp. -/
def markRead (notifId : Nat) (uid : String) (st : Store) (now : Nat) :
    Nat × Store :=
  match findDoc st.notifications notifId with
  | none => (404, st)
  | some nd =>
      if nd.user_id != uid then (403, st)
      else
        (200, { st with notifications :=
            (updateDoc st.notifications notifId
              (fun n => { n with is_read := true, read_at := some now })) })

/-! Concrete documents and stores used to instantiate the theorems below. -/

/-- A pre-existing Found item with title "x" in category "c". -/
def exCand : ItemData :=
  { title := some "x", description := none, category := "c", contact_info := ""
    location := none, image_url := "", posted_by := "ua"
    status := ItemStatus.Found, date := 0 }

/-- A newly posted Lost item with the same title and category. -/
def exNew : ItemData :=
  { title := some "x", description := none, category := "c", contact_info := ""
    location := none, image_url := "", posted_by := "nu"
    status := ItemStatus.Lost, date := 0 }

/-- A legacy Found document in category "c" whose `title` field is absent:
scoring it throws a TypeError. -/
def exBadCand : ItemData :=
  { title := none, description := none, category := "c", contact_info := ""
    location := none, image_url := "", posted_by := "ub"
    status := ItemStatus.Found, date := 0 }

/-- An item whose description has a duplicated token. -/
def exDescAA : ItemData :=
  { title := some "p", description := some "a a", category := "c", contact_info := ""
    location := none, image_url := "", posted_by := "pa"
    status := ItemStatus.Lost, date := 0 }

/-- An item whose description is a single token. -/
def exDescA : ItemData :=
  { title := some "q", description := some "a", category := "c", contact_info := ""
    location := none, image_url := "", posted_by := "pb"
    status := ItemStatus.Found, date := 0 }

/-- An item whose title is present but the empty string. -/
def exEmptyTitle : ItemData :=
  { title := some "", description := none, category := "c", contact_info := ""
    location := none, image_url := "", posted_by := "pe"
    status := ItemStatus.Lost, date := 0 }

def emptyStore : Store :=
  { items := [], matchDocs := [], notifications := [], nextId := 0 }

def stC1 : Store :=
  { items := [], matchDocs := [], notifications := [], nextId := 3 }

/-- A Lost item owned by user "u". -/
def itemLostU : ItemData := { exNew with posted_by := "u" }

/-- A Found item owned by user "v". -/
def itemFoundV : ItemData := { exCand with posted_by := "v" }

/-- A match already in the Confirmed state. -/
def mdC2 : MatchData :=
  { lost_item_id := 1, found_item_id := 2, confidence_score := 40
    status := MatchStatus.Confirmed, created_at := 0, updated_at := none }

def stC2 : Store :=
  { items := [(1, itemLostU), (2, itemFoundV)], matchDocs := [(0, mdC2)]
    notifications := [], nextId := 3 }

/-- A pending match between items 1 and 2. -/
def mdC5 : MatchData :=
  { lost_item_id := 1, found_item_id := 2, confidence_score := 40
    status := MatchStatus.Pending, created_at := 0, updated_at := none }

def stC5 : Store :=
  { items := [(1, itemLostU), (2, itemFoundV)], matchDocs := [(10, mdC5)]
    notifications := [], nextId := 11 }

/-- An unread notification addressed to user "u". -/
def ndC8 : NotificationData :=
  { user_id := "u", message := "m", is_read := false, created_at := 0
    match_id := 5, read_at := none }

def stC8 : Store :=
  { items := [], matchDocs := [], notifications := [(0, ndC8)], nextId := 1 }

/-- A store whose pending match references a lost item that no longer
exists (only the found item, id 2, is present). -/
def stC10 : Store :=
  { items := [(2, itemFoundV)], matchDocs := [(0, mdC5)]
    notifications := [], nextId := 3 }

/-- A store with one scorable candidate and one candidate whose missing
title makes scoring throw mid-scan. -/
def c9Store : Store :=
  { items := [(1, exCand), (2, exBadCand)], matchDocs := []
    notifications := [], nextId := 3 }

/-- The store state after the scan of `c9Store` has processed the good
candidate and then thrown on the bad one. -/
def c9St1 : Store :=
  { items := [(1, exCand), (2, exBadCand)]
    matchDocs := [(3, mkMatchData 9 exNew 1 40 3)]
    notifications := [(4, mkNotifData exNew exCand 3 3)]
    nextId := 5 }

/-- A request whose title is whitespace-only (truthy in JS, empty after trim). -/
def reqWS : CreateItemRequest :=
  { title := some " ", description := none, category := some "c"
    contact_info := none, location := none, status := some "Lost", image := false }

/-- A request with no title at all. -/
def reqNoTitle : CreateItemRequest := { reqWS with title := none }

/-- A fully valid request without an image. -/
def reqOk : CreateItemRequest := { reqWS with title := some "x" }

/-! Helper lemmas. -/

/-- The empty list is a contiguous sublist of everything
(JS: `s.includes('')` is always true). -/
theorem subList_nil (l : List Char) : subList [] l = true := by
  cases l <;> rfl

/-- `==` is symmetric for lawful instances. -/
theorem beqComm {α : Type} [BEq α] [LawfulBEq α] (a b : α) : (a == b) = (b == a) := by
  by_cases h : a = b
  · subst h; rfl
  · rw [beq_false_of_ne h, beq_false_of_ne (Ne.symm h)]

/-- The title factor is symmetric in its two arguments. -/
theorem titleFactor_comm (a b : Option String) : titleFactor a b = titleFactor b a := by
  match a, b with
  | none, none => rfl
  | none, some y => rfl
  | some x, none => rfl
  | some x, some y =>
      simp only [titleFactor]
      rw [Bool.or_comm]

/-- The location factor is symmetric in its two arguments. -/
theorem locFactor_comm (a b : Option String) : locFactor a b = locFactor b a := by
  match a, b with
  | none, none => rfl
  | none, some y => rfl
  | some x, none => rfl
  | some x, some y =>
      simp only [locFactor]
      rw [Bool.or_comm (x == ""), beqComm (lowerData x),
        Bool.or_comm (subList (lowerData y) (lowerData x))]

/-- A status accepted by the whitelist is in particular not falsy. -/
theorem statusValid_not_falsy (s : Option String) (h : statusValid s = true) :
    jsFalsy s = false := by
  cases s with
  | none => simp [statusValid] at h
  | some v =>
      simp only [statusValid, Bool.or_eq_true, beq_iff_eq] at h
      rcases h with h | h <;> subst h <;> rfl

/-- `findDoc` after `updateDoc`: the updated id is mapped, others untouched. -/
theorem findDoc_updateDoc {α : Type} (docs : List (Nat × α)) (id j : Nat) (f : α → α) :
    findDoc (updateDoc docs id f) j =
      if j = id then (findDoc docs j).map f else findDoc docs j := by
  induction docs with
  | nil => by_cases h : j = id <;> simp [findDoc, updateDoc, h]
  | cons p rest ih =>
      simp only [updateDoc, List.map_cons] at *
      by_cases hp : p.1 = id <;> by_cases hj : p.1 = j <;>
        by_cases hij : j = id <;>
        simp [findDoc, hp, hj, hij, ih, updateDoc] <;>
        simp_all

/-- A document appended to a collection is found by its id. -/
theorem findDoc_append_isSome {α : Type} (l : List (Nat × α)) (k : Nat) (v : α) :
    (findDoc (l ++ [(k, v)]) k).isSome = true := by
  induction l with
  | nil => simp [findDoc]
  | cons p rest ih =>
      by_cases h : p.1 = k <;> simp [findDoc, h, ih]

/-- Looking up an item after the two `Returned` writes of a confirmation. -/
theorem findDoc_double_setReturned (items : List (Nat × ItemData)) (lid fid j : Nat)
    (v : ItemData) (hj : findDoc items j = some v) (hjj : j = lid ∨ j = fid) :
    findDoc (updateDoc (updateDoc items lid setReturned) fid setReturned) j =
      some { v with status := ItemStatus.Returned } := by
  rw [findDoc_updateDoc, findDoc_updateDoc]
  by_cases h2 : j = fid
  · rw [if_pos h2]
    by_cases h1 : j = lid
    · rw [if_pos h1, hj]; rfl
    · rw [if_neg h1, hj]; rfl
  · rw [if_neg h2]
    rw [if_pos (hjj.resolve_right h2), hj]
    rfl

/-- Equation for a successful `markRead` call: 200, `is_read` set,
`read_at` set to the call's server timestamp. -/
theorem markRead_ok (nid : Nat) (uid : String) (st : Store) (nd : NotificationData)
    (t : Nat) (h1 : findDoc st.notifications nid = some nd)
    (h2 : nd.user_id = uid) :
    markRead nid uid st t =
      (200, { st with notifications :=
        (updateDoc st.notifications nid
          (fun n => { n with is_read := true, read_at := some t })) }) := by
  have hbneq : (nd.user_id != uid) = false := by simp [h2]
  unfold markRead
  rw [h1]
  simp only [hbneq, Bool.false_eq_true, if_false]

/-- The status seen after an in-place match update. -/
theorem findDoc_update_status_map (docs : List (Nat × MatchData)) (mid : Nat)
    (md : MatchData) (f : MatchData → MatchData)
    (hm : findDoc docs mid = some md) :
    (findDoc (updateDoc docs mid f) mid).map (fun m => m.status) =
      some (f md).status := by
  rw [findDoc_updateDoc, if_pos rfl, hm]
  rfl

/-- One candidate iteration never touches the items collection. -/
theorem processCandidate_items (newItemId : Nat) (nd : ItemData) (cand : Nat × ItemData)
    (st : Store) (now : Nat) (st1 : Store) (r : Option MatchResult)
    (h : processCandidate newItemId nd cand st now = some (st1, r)) :
    st1.items = st.items := by
  unfold processCandidate at h
  split at h
  · cases h
  · split at h <;>
      · simp only [Option.some.injEq, Prod.mk.injEq] at h
        obtain ⟨h1, h2⟩ := h
        rw [← h1]

/-- A below-threshold iteration leaves the store untouched. -/
theorem processCandidate_none (newItemId : Nat) (nd : ItemData) (cand : Nat × ItemData)
    (st : Store) (now : Nat) (st1 : Store)
    (h : processCandidate newItemId nd cand st now = some (st1, none)) :
    st1 = st := by
  unfold processCandidate at h
  split at h
  · cases h
  · split at h
    · simp at h
    · simp only [Option.some.injEq, Prod.mk.injEq] at h
      exact h.1.symm

/-- An above-threshold iteration appends exactly one match and one
notification. -/
theorem processCandidate_some (newItemId : Nat) (nd : ItemData) (cand : Nat × ItemData)
    (st : Store) (now : Nat) (st1 : Store) (res : MatchResult)
    (h : processCandidate newItemId nd cand st now = some (st1, some res)) :
    ∃ m n, st1.matchDocs = st.matchDocs ++ [m] ∧
      st1.notifications = st.notifications ++ [n] := by
  unfold processCandidate at h
  split at h
  · cases h
  · rename_i cs hs
    split at h
    · simp only [Option.some.injEq, Prod.mk.injEq] at h
      obtain ⟨h1, h2⟩ := h
      refine ⟨(st.nextId, mkMatchData newItemId nd cand.1 cs now),
        (st.nextId + 1, mkNotifData nd cand.2 st.nextId now), ?_, ?_⟩ <;>
        rw [← h1]
    · simp at h

/-- The scan never touches the items collection. -/
theorem genScan_items (newItemId : Nat) (nd : ItemData) (now : Nat) :
    ∀ (cands : List (Nat × ItemData)) (st : Store) (acc : List MatchResult),
      ((genScan newItemId nd now cands st acc).1).items = st.items := by
  intro cands
  induction cands with
  | nil => intro st acc; rfl
  | cons c cs ih =>
      intro st acc
      simp only [genScan]
      cases hp : processCandidate newItemId nd c st now with
      | none => rfl
      | some p =>
          obtain ⟨st1, r⟩ := p
          have hit : st1.items = st.items :=
            processCandidate_items newItemId nd c st now st1 r hp
          cases r with
          | none => rw [ih st1 acc, hit]
          | some res => rw [ih st1 (acc ++ [res]), hit]

/-- A scan that completes normally has appended one match and one
notification per accumulated result. -/
theorem genScan_ok (newItemId : Nat) (nd : ItemData) (now : Nat) :
    ∀ (cands : List (Nat × ItemData)) (st : Store) (acc : List MatchResult)
      (st1 : Store) (acc1 : List MatchResult),
      genScan newItemId nd now cands st acc = (st1, some acc1) →
      ∃ t u, st1.matchDocs = st.matchDocs ++ t ∧
        st1.notifications = st.notifications ++ u ∧
        acc.length + t.length = acc1.length ∧
        acc.length + u.length = acc1.length := by
  intro cands
  induction cands with
  | nil =>
      intro st acc st1 acc1 h
      simp only [genScan, Prod.mk.injEq, Option.some.injEq] at h
      obtain ⟨h1, h2⟩ := h
      subst h1; subst h2
      exact ⟨[], [], by simp, by simp, by simp, by simp⟩
  | cons c cs ih =>
      intro st acc st1 acc1 h
      simp only [genScan] at h
      cases hp : processCandidate newItemId nd c st now with
      | none => rw [hp] at h; simp at h
      | some p =>
          obtain ⟨stA, r⟩ := p
          rw [hp] at h
          cases r with
          | none =>
              have hA : stA = st := processCandidate_none newItemId nd c st now stA hp
              rw [hA] at h
              exact ih st acc st1 acc1 h
          | some res =>
              obtain ⟨t, u, ht, hu, hlt, hlu⟩ := ih stA (acc ++ [res]) st1 acc1 h
              obtain ⟨m, n, hm, hn⟩ :=
                processCandidate_some newItemId nd c st now stA res hp
              refine ⟨m :: t, n :: u, ?_, ?_, ?_, ?_⟩
              · rw [ht, hm, List.append_assoc]; rfl
              · rw [hu, hn, List.append_assoc]; rfl
              · simp at hlt ⊢; omega
              · simp at hlu ⊢; omega

/-- Splitting the scan at a list decomposition point. -/
theorem genScan_append (newItemId : Nat) (nd : ItemData) (now : Nat)
    (l1 l2 : List (Nat × ItemData)) :
    ∀ (st : Store) (acc : List MatchResult),
      genScan newItemId nd now (l1 ++ l2) st acc =
        match genScan newItemId nd now l1 st acc with
        | (st1, some acc1) => genScan newItemId nd now l2 st1 acc1
        | (st1, none) => (st1, none) := by
  induction l1 with
  | nil => intro st acc; rfl
  | cons c cs ih =>
      intro st acc
      simp only [List.cons_append, genScan]
      cases hp : processCandidate newItemId nd c st now with
      | none => rfl
      | some p =>
          obtain ⟨stA, r⟩ := p
          cases r with
          | none => exact ih stA acc
          | some x => exact ih stA (acc ++ [x])

/-- `generateMatches` never touches the items collection. -/
theorem generateMatches_items (newItemId : Nat) (nd : ItemData) (st : Store) (now : Nat) :
    (generateMatches newItemId nd st now).1.items = st.items := by
  unfold generateMatches
  cases hg : genScan newItemId nd now (candidates st nd) st [] with
  | mk st1 r =>
      have hi := genScan_items newItemId nd now (candidates st nd) st []
      rw [hg] at hi
      cases r <;> exact hi

/-- Equation for a fully successful confirmation: the match is updated and
both referenced items are set to Returned. -/
theorem confirm_ok (mid : Nat) (uid : String) (st : Store) (t : Nat) (md : MatchData)
    (li fi : ItemData)
    (hm : findDoc st.matchDocs mid = some md)
    (hl : findDoc st.items md.lost_item_id = some li)
    (hf : findDoc st.items md.found_item_id = some fi)
    (hauth : li.posted_by = uid ∨ fi.posted_by = uid) :
    (updateMatchStatus mid (some "Confirmed") uid st t).statusCode = 200 ∧
    (updateMatchStatus mid (some "Confirmed") uid st t).store.matchDocs =
      updateDoc st.matchDocs mid
        (fun m => { m with status := MatchStatus.Confirmed, updated_at := some t }) ∧
    (updateMatchStatus mid (some "Confirmed") uid st t).store.items =
      updateDoc (updateDoc st.items md.lost_item_id setReturned)
        md.found_item_id setReturned ∧
    (updateMatchStatus mid (some "Confirmed") uid st t).store.notifications =
      st.notifications := by
  have hp : parseMatchStatus (some "Confirmed") = some MatchStatus.Confirmed := by decide
  have hcond : (li.posted_by == uid || fi.posted_by == uid) = true := by
    rcases hauth with h | h <;> simp [h]
  have heq : updateMatchStatus mid (some "Confirmed") uid st t =
      { statusCode := 200
        store := { st with
          matchDocs :=
            (updateDoc st.matchDocs mid
              (fun m => { m with status := MatchStatus.Confirmed, updated_at := some t }))
          items :=
            (updateDoc (updateDoc st.items md.lost_item_id setReturned)
              md.found_item_id setReturned) } } := by
    unfold updateMatchStatus
    rw [hp]
    simp only [hm, hl, hf, hcond, Bool.not_true, Bool.false_eq_true, if_false,
      beq_self_eq_true, if_true, Option.isSome_some, Bool.and_self]
  rw [heq]
  exact ⟨rfl, rfl, rfl, rfl⟩

/-- Equation for item persistence plus match generation inside
`POST /items`. -/
theorem createItemCore_ok (req : CreateItemRequest) (uid : String) (url : String)
    (st : Store) (now : Nat) :
    (createItemCore req uid url st now).statusCode = 201 ∧
    (createItemCore req uid url st now).createdItemId = some st.nextId ∧
    (createItemCore req uid url st now).store.items.length = st.items.length + 1 ∧
    (findDoc (createItemCore req uid url st now).store.items st.nextId).isSome = true := by
  unfold createItemCore
  refine ⟨rfl, rfl, ?_, ?_⟩
  · simp only [generateMatches_items, List.length_append, List.length_cons, List.length_nil]
  · simp only [generateMatches_items]
    exact findDoc_append_isSome st.items st.nextId _

/-! Claim theorems. -/

/-- C1: for every candidate scanned by `generateMatches`, a confidence score
below 30 creates no match and no notification; a score of at least 30 creates
exactly one Pending match carrying that score and exactly one notification
whose `match_id` is the new match's id and whose `user_id` is the candidate
item's `posted_by`. -/
theorem c1_threshold_match_notification (newItemId : Nat) (nd : ItemData)
    (cand : Nat × ItemData) (st : Store) (now : Nat) (cs : Nat)
    (h : scoreItems cand.2 nd = some cs) :
    (cs < 30 → processCandidate newItemId nd cand st now = some (st, none)) ∧
    (30 ≤ cs →
      processCandidate newItemId nd cand st now =
        some ({ st with
            matchDocs := st.matchDocs ++ [(st.nextId, mkMatchData newItemId nd cand.1 cs now)]
            notifications := st.notifications ++ [(st.nextId + 1, mkNotifData nd cand.2 st.nextId now)]
            nextId := st.nextId + 2 },
          some (mkMatchResult cand cs st.nextId)) ∧
      (mkMatchData newItemId nd cand.1 cs now).status = MatchStatus.Pending ∧
      (mkMatchData newItemId nd cand.1 cs now).confidence_score = cs ∧
      (mkNotifData nd cand.2 st.nextId now).match_id = st.nextId ∧
      (mkNotifData nd cand.2 st.nextId now).user_id = cand.2.posted_by) := by
  constructor
  · intro hlt
    unfold processCandidate
    rw [h]
    exact if_neg (by omega)
  · intro hge
    refine ⟨?_, rfl, rfl, rfl, rfl⟩
    unfold processCandidate
    rw [h]
    exact if_pos hge

/-- Witness for C1 at a concrete candidate scoring 40. -/
theorem c1_threshold_witness :
    processCandidate 9 exNew (1, exCand) stC1 7 =
      some ({ stC1 with
          matchDocs := stC1.matchDocs ++ [(stC1.nextId, mkMatchData 9 exNew 1 40 7)]
          notifications := stC1.notifications ++ [(stC1.nextId + 1, mkNotifData exNew exCand stC1.nextId 7)]
          nextId := stC1.nextId + 2 },
        some (mkMatchResult (1, exCand) 40 stC1.nextId)) :=
  ((c1_threshold_match_notification 9 exNew (1, exCand) stC1 7 40 (by decide)).2
    (by omega)).1

/-- C2 counterexample: a match already Confirmed is moved back to Pending by
an authorized `PUT /matches/:id/status` request, so Confirmed is not
terminal. -/
theorem c2_terminal_counterexample :
    (findDoc stC2.matchDocs 0).map (fun m => m.status) = some MatchStatus.Confirmed ∧
    (findDoc (updateMatchStatus 0 (some "Pending") "u" stC2 9).store.matchDocs 0).map
      (fun m => m.status) = some MatchStatus.Pending := by
  constructor
  · decide
  · decide

/-- C2 (amended): `updateMatchStatus` performs no transition guard: for an
existing match and an authorized caller, any whitelisted status value simply
overwrites the current match status, whatever it was — including Confirmed or
Rejected back to Pending. -/
theorem c2_status_overwrite (mid : Nat) (s : String) (ns : MatchStatus) (uid : String)
    (st : Store) (now : Nat) (md : MatchData) (li : ItemData)
    (hp : parseMatchStatus (some s) = some ns)
    (hm : findDoc st.matchDocs mid = some md)
    (hl : findDoc st.items md.lost_item_id = some li)
    (hauth : li.posted_by = uid) :
    (findDoc (updateMatchStatus mid (some s) uid st now).store.matchDocs mid).map
      (fun m => m.status) = some ns := by
  have hcond : (li.posted_by == uid) = true := by simp [hauth]
  unfold updateMatchStatus
  rw [hp]
  simp only [hm, hl, hcond, Bool.true_or, Bool.not_true, Bool.false_eq_true, if_false]
  by_cases hns : ns = MatchStatus.Confirmed
  · subst hns
    simp only [beq_self_eq_true, if_true, hl, Option.isSome_some, Bool.true_and]
    by_cases hfe : (findDoc st.items md.found_item_id).isSome = true
    · rw [if_pos hfe]
      exact findDoc_update_status_map st.matchDocs mid md
        (fun m => { m with status := MatchStatus.Confirmed, updated_at := some now }) hm
    · rw [if_neg hfe]
      exact findDoc_update_status_map st.matchDocs mid md
        (fun m => { m with status := MatchStatus.Confirmed, updated_at := some now }) hm
  · rw [if_neg (show ¬((ns == MatchStatus.Confirmed) = true) by
      simp only [beq_iff_eq]; exact hns)]
    exact findDoc_update_status_map st.matchDocs mid md
      (fun m => { m with status := ns, updated_at := some now }) hm

/-- Witness for C2's amended theorem: Confirmed back to Pending. -/
theorem c2_status_overwrite_witness :
    (findDoc (updateMatchStatus 0 (some "Pending") "u" stC2 9).store.matchDocs 0).map
      (fun m => m.status) = some MatchStatus.Pending :=
  c2_status_overwrite 0 "Pending" MatchStatus.Pending "u" stC2 9 mdC2 itemLostU
    (by decide) (by decide) (by decide) (by decide)

/-- C3 counterexample: the title factor has no missing-field guard — with an
empty (present) title it contributes 40, not 0, and with an absent title the
scoring throws instead of contributing 0. -/
theorem c3_missing_field_counterexample :
    titleFactor (some "") (some "x") = some 40 ∧
    scoreItems exEmptyTitle exCand = some 40 ∧
    scoreItems exBadCand exCand = none := by
  refine ⟨by decide, by decide, by decide⟩

/-- C3 (amended): the description and location factors contribute 0 when
either side's field is absent or empty, and the other factors are still
evaluated; the title factor however is unguarded: with an absent title the
scoring throws, and with an empty title it contributes 40. -/
theorem c3_missing_field_amended (e n : ItemData) :
    (jsFalsy e.description = true ∨ jsFalsy n.description = true →
      descFactor e.description n.description = 0) ∧
    (jsFalsy e.location = true ∨ jsFalsy n.location = true →
      locFactor e.location n.location = 0) ∧
    (e.title = none ∨ n.title = none → scoreItems e n = none) ∧
    (∀ et nt : String, e.title = some et → n.title = some nt →
      et = "" ∨ nt = "" →
      scoreItems e n =
        some (40 + descFactor e.description n.description
                 + locFactor e.location n.location)) := by
  refine ⟨?_, ?_, ?_, ?_⟩
  · intro h
    cases hd : e.description with
    | none => rfl
    | some s =>
        cases hn : n.description with
        | none => rfl
        | some t =>
            rw [hd, hn] at h
            simp only [jsFalsy] at h
            rcases h with h | h <;> simp [descFactor, h]
  · intro h
    cases hd : e.location with
    | none => rfl
    | some s =>
        cases hn : n.location with
        | none => rfl
        | some t =>
            rw [hd, hn] at h
            simp only [jsFalsy] at h
            rcases h with h | h <;> simp [locFactor, h]
  · intro h
    unfold scoreItems
    rcases h with h | h
    · rw [h]
      cases n.title <;> rfl
    · rw [h]
      cases e.title <;> rfl
  · intro et nt he hn hone
    unfold scoreItems
    rw [he, hn]
    have hcond : (subList (lowerData nt) (lowerData et) ||
        subList (lowerData et) (lowerData nt)) = true := by
      rcases hone with h | h <;> subst h
      · rw [show lowerData "" = [] from rfl, subList_nil, Bool.or_true]
      · rw [show lowerData "" = [] from rfl, subList_nil, Bool.true_or]
    simp only [titleFactor, hcond, if_true]

/-- Witness for C3's amended theorem at concrete items. -/
theorem c3_missing_field_witness :
    descFactor exEmptyTitle.description exCand.description = 0 ∧
    locFactor exEmptyTitle.location exCand.location = 0 ∧
    scoreItems exBadCand exCand = none ∧
    scoreItems exEmptyTitle exCand =
      some (40 + descFactor exEmptyTitle.description exCand.description
               + locFactor exEmptyTitle.location exCand.location) := by
  refine ⟨?_, ?_, ?_, ?_⟩
  · exact (c3_missing_field_amended exEmptyTitle exCand).1 (Or.inl (by decide))
  · exact (c3_missing_field_amended exEmptyTitle exCand).2.1 (Or.inl (by decide))
  · exact (c3_missing_field_amended exBadCand exCand).2.2.1 (Or.inl (by decide))
  · exact (c3_missing_field_amended exEmptyTitle exCand).2.2.2 "" "x"
      (by decide) (by decide) (Or.inl rfl)

/-- C4 counterexample: the description-overlap count is taken over the new
item's token list, so duplicated tokens make the score asymmetric:
descriptions "a a" and "a" give total 5 one way and 10 the other. -/
theorem c4_symmetry_counterexample :
    scoreItems exDescAA exDescA = some 5 ∧
    scoreItems exDescA exDescAA = some 10 := by
  refine ⟨by decide, by decide⟩

/-- C4 (amended): the title factor and the location factor are symmetric
under swapping the "existing" and "new" roles; the description-overlap
factor (and hence the total score) is not symmetric in general, because the
shared-token count runs over the new item's token list with duplicates. -/
theorem c4_symmetry_amended (e n : ItemData) :
    titleFactor e.title n.title = titleFactor n.title e.title ∧
    locFactor e.location n.location = locFactor n.location e.location :=
  ⟨titleFactor_comm e.title n.title, locFactor_comm e.location n.location⟩

/-- C5: for a match whose referenced items exist and an authorized caller,
confirming sets the match to Confirmed and both items to Returned, whatever
their previous statuses; confirming a second time succeeds and leaves that
final state (match Confirmed, both items Returned) unchanged. -/
theorem c5_confirm_sets_returned (mid : Nat) (uid : String) (st : Store)
    (t1 t2 : Nat) (md : MatchData) (li fi : ItemData)
    (hm : findDoc st.matchDocs mid = some md)
    (hl : findDoc st.items md.lost_item_id = some li)
    (hf : findDoc st.items md.found_item_id = some fi)
    (hauth : li.posted_by = uid ∨ fi.posted_by = uid) :
    (updateMatchStatus mid (some "Confirmed") uid st t1).statusCode = 200 ∧
    ((findDoc (updateMatchStatus mid (some "Confirmed") uid st t1).store.matchDocs
      mid).map (fun m => m.status) = some MatchStatus.Confirmed) ∧
    ((findDoc (updateMatchStatus mid (some "Confirmed") uid st t1).store.items
      md.lost_item_id).map (fun i => i.status) = some ItemStatus.Returned) ∧
    ((findDoc (updateMatchStatus mid (some "Confirmed") uid st t1).store.items
      md.found_item_id).map (fun i => i.status) = some ItemStatus.Returned) ∧
    (updateMatchStatus mid (some "Confirmed") uid
      (updateMatchStatus mid (some "Confirmed") uid st t1).store t2).statusCode = 200 ∧
    ((findDoc (updateMatchStatus mid (some "Confirmed") uid
        (updateMatchStatus mid (some "Confirmed") uid st t1).store t2).store.matchDocs
      mid).map (fun m => m.status) = some MatchStatus.Confirmed) ∧
    ((findDoc (updateMatchStatus mid (some "Confirmed") uid
        (updateMatchStatus mid (some "Confirmed") uid st t1).store t2).store.items
      md.lost_item_id).map (fun i => i.status) = some ItemStatus.Returned) ∧
    ((findDoc (updateMatchStatus mid (some "Confirmed") uid
        (updateMatchStatus mid (some "Confirmed") uid st t1).store t2).store.items
      md.found_item_id).map (fun i => i.status) = some ItemStatus.Returned) := by
  obtain ⟨hs1, hmd1, hit1, hnf1⟩ := confirm_ok mid uid st t1 md li fi hm hl hf hauth
  have hm2 : findDoc (updateMatchStatus mid (some "Confirmed") uid st t1).store.matchDocs
      mid = some { md with status := MatchStatus.Confirmed, updated_at := some t1 } := by
    rw [hmd1, findDoc_updateDoc, if_pos rfl, hm]
    rfl
  have hl2 : findDoc (updateMatchStatus mid (some "Confirmed") uid st t1).store.items
      md.lost_item_id = some { li with status := ItemStatus.Returned } := by
    rw [hit1]
    exact findDoc_double_setReturned st.items md.lost_item_id md.found_item_id
      md.lost_item_id li hl (Or.inl rfl)
  have hf2 : findDoc (updateMatchStatus mid (some "Confirmed") uid st t1).store.items
      md.found_item_id = some { fi with status := ItemStatus.Returned } := by
    rw [hit1]
    exact findDoc_double_setReturned st.items md.lost_item_id md.found_item_id
      md.found_item_id fi hf (Or.inr rfl)
  have hauth2 : ItemData.posted_by { li with status := ItemStatus.Returned } = uid ∨
      ItemData.posted_by { fi with status := ItemStatus.Returned } = uid := hauth
  obtain ⟨hs2, hmd2, hit2, hnf2⟩ :=
    confirm_ok mid uid (updateMatchStatus mid (some "Confirmed") uid st t1).store t2
      { md with status := MatchStatus.Confirmed, updated_at := some t1 }
      { li with status := ItemStatus.Returned } { fi with status := ItemStatus.Returned }
      hm2 hl2 hf2 hauth2
  refine ⟨hs1, ?_, ?_, ?_, hs2, ?_, ?_, ?_⟩
  · rw [hmd1]
    exact findDoc_update_status_map st.matchDocs mid md
      (fun m => { m with status := MatchStatus.Confirmed, updated_at := some t1 }) hm
  · rw [hl2]
    rfl
  · rw [hf2]
    rfl
  · rw [hmd2]
    exact findDoc_update_status_map
      (updateMatchStatus mid (some "Confirmed") uid st t1).store.matchDocs mid
      { md with status := MatchStatus.Confirmed, updated_at := some t1 }
      (fun m => { m with status := MatchStatus.Confirmed, updated_at := some t2 }) hm2
  · rw [hit2]
    rw [findDoc_double_setReturned
      (updateMatchStatus mid (some "Confirmed") uid st t1).store.items
      md.lost_item_id md.found_item_id md.lost_item_id
      { li with status := ItemStatus.Returned } hl2 (Or.inl rfl)]
    rfl
  · rw [hit2]
    rw [findDoc_double_setReturned
      (updateMatchStatus mid (some "Confirmed") uid st t1).store.items
      md.lost_item_id md.found_item_id md.found_item_id
      { fi with status := ItemStatus.Returned } hf2 (Or.inr rfl)]
    rfl

/-- Witness for C5 on a concrete pending match between existing items. -/
theorem c5_confirm_witness :
    (updateMatchStatus 10 (some "Confirmed") "u" stC5 1).statusCode = 200 ∧
    ((findDoc (updateMatchStatus 10 (some "Confirmed") "u" stC5 1).store.matchDocs
      10).map (fun m => m.status) = some MatchStatus.Confirmed) ∧
    ((findDoc (updateMatchStatus 10 (some "Confirmed") "u" stC5 1).store.items
      mdC5.lost_item_id).map (fun i => i.status) = some ItemStatus.Returned) ∧
    ((findDoc (updateMatchStatus 10 (some "Confirmed") "u" stC5 1).store.items
      mdC5.found_item_id).map (fun i => i.status) = some ItemStatus.Returned) ∧
    (updateMatchStatus 10 (some "Confirmed") "u"
      (updateMatchStatus 10 (some "Confirmed") "u" stC5 1).store 2).statusCode = 200 ∧
    ((findDoc (updateMatchStatus 10 (some "Confirmed") "u"
        (updateMatchStatus 10 (some "Confirmed") "u" stC5 1).store 2).store.matchDocs
      10).map (fun m => m.status) = some MatchStatus.Confirmed) ∧
    ((findDoc (updateMatchStatus 10 (some "Confirmed") "u"
        (updateMatchStatus 10 (some "Confirmed") "u" stC5 1).store 2).store.items
      mdC5.lost_item_id).map (fun i => i.status) = some ItemStatus.Returned) ∧
    ((findDoc (updateMatchStatus 10 (some "Confirmed") "u"
        (updateMatchStatus 10 (some "Confirmed") "u" stC5 1).store 2).store.items
      mdC5.found_item_id).map (fun i => i.status) = some ItemStatus.Returned) :=
  c5_confirm_sets_returned 10 "u" stC5 1 2 mdC5 itemLostU itemFoundV
    (by decide) (by decide) (by decide) (Or.inl (by decide))

/-- C6 counterexample: a whitespace-only title is truthy in JS, so it passes
validation even though it is empty after trimming — the item is created
(201) with an empty stored title instead of being rejected with 400. -/
theorem c6_whitespace_counterexample :
    (createItem reqWS "u" none emptyStore 0).statusCode = 201 ∧
    (findDoc (createItem reqWS "u" none emptyStore 0).store.items 0).map
      (fun i => i.title) = some (some "") := by
  refine ⟨by decide, by decide⟩

/-- C6 (amended): the request is rejected with 400, before any upload and
before any persistence, exactly when title, category or status is absent or
the empty string (JS falsiness, no trimming — whitespace-only values pass),
or status is not exactly the case-sensitive string "Lost" or "Found". -/
theorem c6_validation_amended (req : CreateItemRequest) (uid : String)
    (upl : Option String) (st : Store) (now : Nat)
    (h : jsFalsy req.title = true ∨ jsFalsy req.category = true ∨
         jsFalsy req.status = true ∨ statusValid req.status = false) :
    (createItem req uid upl st now).statusCode = 400 ∧
    (createItem req uid upl st now).store = st ∧
    (createItem req uid upl st now).uploadAttempted = false := by
  by_cases hb : (jsFalsy req.title || jsFalsy req.category || jsFalsy req.status) = true
  · unfold createItem
    rw [if_pos hb]
    exact ⟨rfl, rfl, rfl⟩
  · have h1 : jsFalsy req.title = false := by
      cases hx : jsFalsy req.title
      · rfl
      · exact absurd (by rw [hx]; rfl) hb
    have h2 : jsFalsy req.category = false := by
      cases hx : jsFalsy req.category
      · rfl
      · exact absurd (by rw [h1, hx]; rfl) hb
    have h3 : jsFalsy req.status = false := by
      cases hx : jsFalsy req.status
      · rfl
      · exact absurd (by rw [h1, h2, hx]; rfl) hb
    have hsv : statusValid req.status = false := by
      rcases h with h | h | h | h
      · exact absurd (h1.symm.trans h) (by decide)
      · exact absurd (h2.symm.trans h) (by decide)
      · exact absurd (h3.symm.trans h) (by decide)
      · exact h
    unfold createItem
    rw [if_neg (by simp [h1, h2, h3]), if_pos (by simp [hsv])]
    exact ⟨rfl, rfl, rfl⟩

/-- Witness for C6's amended theorem: a request with no title is rejected
with 400 and nothing is uploaded or persisted. -/
theorem c6_validation_witness :
    (createItem reqNoTitle "u" none emptyStore 0).statusCode = 400 ∧
    (createItem reqNoTitle "u" none emptyStore 0).store = emptyStore ∧
    (createItem reqNoTitle "u" none emptyStore 0).uploadAttempted = false :=
  c6_validation_amended reqNoTitle "u" none emptyStore 0 (Or.inl (by decide))

/-- C7: a request that passes validation, and whose upload succeeds when an
image is attached, always yields a 201 with the item persisted — whatever
happens inside the match-generation scan (its errors are swallowed by
`generateMatches` and cannot fail item creation). -/
theorem c7_creation_succeeds (req : CreateItemRequest) (uid : String)
    (upl : Option String) (st : Store) (now : Nat)
    (ht : jsFalsy req.title = false) (hc : jsFalsy req.category = false)
    (hs : statusValid req.status = true)
    (hu : req.image = true → ∃ u, upl = some u) :
    (createItem req uid upl st now).statusCode = 201 ∧
    (createItem req uid upl st now).createdItemId = some st.nextId ∧
    (createItem req uid upl st now).store.items.length = st.items.length + 1 ∧
    (findDoc (createItem req uid upl st now).store.items st.nextId).isSome = true := by
  have hsf : jsFalsy req.status = false := statusValid_not_falsy req.status hs
  unfold createItem
  rw [if_neg (by simp [ht, hc, hsf]), if_neg (by simp [hs])]
  cases himg : req.image with
  | true =>
      obtain ⟨u, hup⟩ := hu himg
      rw [hup]
      exact createItemCore_ok req uid u st now
  | false =>
      exact createItemCore_ok req uid "" st now

/-- Witness for C7 on a store whose scan throws midway: creation still
succeeds with 201 and the returned match list is empty. -/
theorem c7_creation_witness :
    (createItem reqOk "u" none c9Store 0).statusCode = 201 ∧
    (createItem reqOk "u" none c9Store 0).createdItemId = some 3 ∧
    (createItem reqOk "u" none c9Store 0).matchList = [] :=
  ⟨(c7_creation_succeeds reqOk "u" none c9Store 0 (by decide) (by decide) (by decide)
      (by intro hcontra; exact absurd hcontra (by decide))).1,
   (c7_creation_succeeds reqOk "u" none c9Store 0 (by decide) (by decide) (by decide)
      (by intro hcontra; exact absurd hcontra (by decide))).2.1,
   by decide⟩

/-- C8 counterexample: `read_at` is overwritten on every call — after marking
the same notification read at time 1 and again at time 2, `read_at` is 2,
not the first-call value 1. -/
theorem c8_read_at_counterexample :
    ((findDoc (markRead 0 "u" stC8 1).2.notifications 0).map
      (fun n => n.read_at) = some (some 1)) ∧
    ((findDoc (markRead 0 "u" (markRead 0 "u" stC8 1).2 2).2.notifications 0).map
      (fun n => n.read_at) = some (some 2)) ∧
    ¬ ((findDoc (markRead 0 "u" (markRead 0 "u" stC8 1).2 2).2.notifications 0).map
      (fun n => n.read_at) = some (some 1)) := by
  refine ⟨by decide, by decide, by decide⟩

/-- C8 (amended): `markRead` succeeds both times and leaves `is_read` true,
but `read_at` is set to the current server time on every successful call, so
the second call overwrites the first call's `read_at`. -/
theorem c8_markread_amended (nid : Nat) (uid : String) (st : Store) (t1 t2 : Nat)
    (nd : NotificationData)
    (h1 : findDoc st.notifications nid = some nd)
    (h2 : nd.user_id = uid) :
    (markRead nid uid st t1).1 = 200 ∧
    (markRead nid uid (markRead nid uid st t1).2 t2).1 = 200 ∧
    findDoc (markRead nid uid (markRead nid uid st t1).2 t2).2.notifications nid =
      some { nd with is_read := true, read_at := some t2 } := by
  have heq1 := markRead_ok nid uid st nd t1 h1 h2
  have h1b : findDoc (markRead nid uid st t1).2.notifications nid =
      some { nd with is_read := true, read_at := some t1 } := by
    rw [heq1, findDoc_updateDoc, if_pos rfl, h1]
    rfl
  have heq2 := markRead_ok nid uid (markRead nid uid st t1).2
    { nd with is_read := true, read_at := some t1 } t2 h1b h2
  refine ⟨by rw [heq1], by rw [heq2], ?_⟩
  rw [heq2, findDoc_updateDoc, if_pos rfl, h1b]
  rfl

/-- Witness for C8's amended theorem on a concrete notification. -/
theorem c8_markread_witness :
    (markRead 0 "u" stC8 1).1 = 200 ∧
    (markRead 0 "u" (markRead 0 "u" stC8 1).2 2).1 = 200 ∧
    findDoc (markRead 0 "u" (markRead 0 "u" stC8 1).2 2).2.notifications 0 =
      some { ndC8 with is_read := true, read_at := some 2 } :=
  c8_markread_amended 0 "u" stC8 1 2 ndC8 (by decide) (by decide)

/-- C9: the scan of `generateMatches` is not atomic — when an error is
thrown after earlier candidates already produced matches, the function
returns the empty list while those match and notification documents (one per
accumulated result) stay persisted in the store. -/
theorem c9_nonatomic_scan (newItemId : Nat) (nd : ItemData) (now : Nat)
    (st st1 : Store) (pre : List (Nat × ItemData)) (bad : Nat × ItemData)
    (rest : List (Nat × ItemData)) (ms : List MatchResult)
    (hc : candidates st nd = pre ++ bad :: rest)
    (hpre : genScan newItemId nd now pre st [] = (st1, some ms))
    (hbad : scoreItems bad.2 nd = none)
    (hms : ms ≠ []) :
    generateMatches newItemId nd st now = (st1, []) ∧
    (∃ t, st1.matchDocs = st.matchDocs ++ t ∧ t.length = ms.length ∧ t ≠ []) ∧
    (∃ u, st1.notifications = st.notifications ++ u ∧ u.length = ms.length ∧ u ≠ []) := by
  have hb2 : processCandidate newItemId nd bad st1 now = none := by
    unfold processCandidate
    rw [hbad]
  have hscan : genScan newItemId nd now (bad :: rest) st1 ms = (st1, none) := by
    simp only [genScan, hb2]
  have hfull : genScan newItemId nd now (candidates st nd) st [] = (st1, none) := by
    rw [hc, genScan_append]
    simp only [hpre]
    exact hscan
  obtain ⟨t, u, ht, hu, hlt, hlu⟩ :=
    genScan_ok newItemId nd now pre st [] st1 ms hpre
  simp only [List.length_nil, Nat.zero_add] at hlt hlu
  have hlen : ms.length ≠ 0 := by
    intro hz
    exact hms (List.eq_nil_of_length_eq_zero hz)
  refine ⟨?_, ⟨t, ht, hlt, ?_⟩, ⟨u, hu, hlu, ?_⟩⟩
  · unfold generateMatches
    rw [hfull]
  · intro hz
    rw [hz] at hlt
    simp at hlt
    exact hlen hlt.symm
  · intro hz
    rw [hz] at hlu
    simp at hlu
    exact hlen hlu.symm

/-- Witness for C9: in `c9Store` the first candidate creates a match and a
notification, the second one throws; `generateMatches` returns the empty
list while both documents persist. -/
theorem c9_nonatomic_witness :
    generateMatches 9 exNew c9Store 3 = (c9St1, []) ∧
    (∃ t, c9St1.matchDocs = c9Store.matchDocs ++ t ∧
      t.length = [mkMatchResult (1, exCand) 40 3].length ∧ t ≠ []) ∧
    (∃ u, c9St1.notifications = c9Store.notifications ++ u ∧
      u.length = [mkMatchResult (1, exCand) 40 3].length ∧ u ≠ []) :=
  c9_nonatomic_scan 9 exNew 3 c9Store c9St1 [(1, exCand)] (2, exBadCand) []
    [mkMatchResult (1, exCand) 40 3] (by decide) (by decide) (by decide)
    (by intro hz; cases hz)

/-- C10: confirming updates the match before the items — when the referenced
lost item no longer exists, the request returns 500, but the match has
already been moved to Confirmed and the still-existing found item has been
set to Returned. -/
theorem c10_confirm_error_state (mid : Nat) (uid : String) (st : Store) (now : Nat)
    (md : MatchData) (fi : ItemData)
    (hm : findDoc st.matchDocs mid = some md)
    (hl : findDoc st.items md.lost_item_id = none)
    (hf : findDoc st.items md.found_item_id = some fi)
    (hauth : fi.posted_by = uid) :
    (updateMatchStatus mid (some "Confirmed") uid st now).statusCode = 500 ∧
    ((findDoc (updateMatchStatus mid (some "Confirmed") uid st now).store.matchDocs
      mid).map (fun m => m.status) = some MatchStatus.Confirmed) ∧
    ((findDoc (updateMatchStatus mid (some "Confirmed") uid st now).store.items
      md.found_item_id).map (fun i => i.status) = some ItemStatus.Returned) := by
  have hp : parseMatchStatus (some "Confirmed") = some MatchStatus.Confirmed := by decide
  have hcond : (fi.posted_by == uid) = true := by simp [hauth]
  have heq : updateMatchStatus mid (some "Confirmed") uid st now =
      { statusCode := 500
        store := { st with
          matchDocs :=
            (updateDoc st.matchDocs mid
              (fun m => { m with status := MatchStatus.Confirmed, updated_at := some now }))
          items :=
            (updateDoc (updateDoc st.items md.lost_item_id setReturned)
              md.found_item_id setReturned) } } := by
    unfold updateMatchStatus
    rw [hp]
    simp only [hm, hl, hf, hcond, Bool.false_or, Bool.not_true, Bool.false_eq_true,
      if_false, beq_self_eq_true, if_true, Option.isSome_some, Option.isSome_none,
      Bool.false_and, Bool.and_false]
  rw [heq]
  refine ⟨rfl, ?_, ?_⟩
  · exact findDoc_update_status_map st.matchDocs mid md
      (fun m => { m with status := MatchStatus.Confirmed, updated_at := some now }) hm
  · rw [findDoc_double_setReturned st.items md.lost_item_id md.found_item_id
      md.found_item_id fi hf (Or.inr rfl)]
    rfl

/-- Witness for C10 on a concrete match whose lost item is missing. -/
theorem c10_confirm_error_witness :
    (updateMatchStatus 0 (some "Confirmed") "v" stC10 9).statusCode = 500 ∧
    ((findDoc (updateMatchStatus 0 (some "Confirmed") "v" stC10 9).store.matchDocs
      0).map (fun m => m.status) = some MatchStatus.Confirmed) ∧
    ((findDoc (updateMatchStatus 0 (some "Confirmed") "v" stC10 9).store.items
      mdC5.found_item_id).map (fun i => i.status) = some ItemStatus.Returned) :=
  c10_confirm_error_state 0 "v" stC10 9 mdC5 itemFoundV
    (by decide) (by decide) (by decide) (by decide)

end SeekrBoard
